import Mathlib

/-!
Verification of the EfficientPS repository's two Python source files against
their natural-language specification:

* tools/pytorch2onnx.py — a PyTorch→ONNX export script: it preprocesses one
  input image, patches the model's forward method, runs torch.onnx.export,
  restores the forward method, optionally simplifies the exported graph with
  onnxsim, and optionally cross-checks PyTorch vs ONNX outputs numerically.
* mmdet/models/backbones/__init__.py — a registry module of import aliases.

The script is embedded shallowly: every external library call (mmcv image ops,
torch export, onnxsim, onnxruntime) is an oracle field of an environment
structure Env.  The script's own control flow — the order of the steps, the
assertion/abort points, the mutation of model.forward and of the output file —
is translated statement by statement from the source.  A run produces a result
(ok or an abort message), a final state (forward-method status, output-file
contents, printed lines) and a trace of the steps performed, in order.
-/

namespace EfficientPS

/-- Abstract numeric value: an image array, a tensor, or a network output.
All numeric computation is delegated to oracle fields of Env. -/
abbrev Val := Nat

/-- One entry of an ONNX graph's initializer list, as a (name, payload) pair.
Python compares protobuf messages by value, so value pairs model them. -/
abbrev GInit := String × Nat

/-- Model of an ONNX graph: its input names and its initializer entries
(the only two graph components the script inspects or mutates). -/
structure Graph where
  inputs : List String
  inits  : List GInit
  deriving DecidableEq, Repr

/-- Whether model.forward currently holds the original bound method or the
functools wrapper fixing img_metas, return_loss=False, rescale=False, eval=True. -/
inductive ForwardState where
  | original
  | patched
  deriving DecidableEq, Repr

/-- Oracles for every external library call the script makes.  Each field is an
uninterpreted function; the embedding only fixes how the script wires them. -/
structure Env where
  /-- mmcv.imread on the input image path. -/
  imread : String → Val
  /-- mmcv.imnormalize with the given mean and std arrays. -/
  imnormalize : Val → Val → Val → Val
  /-- mmcv.imresize to the given (height, width). -/
  imresize : Val → Nat → Nat → Val
  /-- numpy transpose(2, 0, 1), HWC to CHW. -/
  transposeCHW : Val → Val
  /-- torch.from_numpy(...).unsqueeze(0).float().cuda(). -/
  toTensor : Val → Val
  /-- np.array over a command-line float list (dtype float32). -/
  npArray : List ℚ → Val
  /-- The graph that torch.onnx.export writes to the output file. -/
  exported : Graph
  /-- onnxsim.simplify: the simplified model and the validation flag. -/
  onnxsim : Graph → Graph × Bool
  /-- Calling the model on the preprocessed image; the ForwardState records
  which forward method the call goes through.  Returns (pan, cat). -/
  pytorchOut : ForwardState → Val → Val × Val
  /-- onnxruntime InferenceSession(...).run on the current file's graph.
  Returns (pan, cat). -/
  sessionRun : Graph → Val → Val × Val
  /-- np.allclose on one pair of outputs. -/
  allclose : Val → Val → Bool

/-- The arguments of the pytorch2onnx function itself. -/
structure Opts where
  input_img : String
  /-- (N, C, H, W). -/
  input_shape : Nat × Nat × Nat × Nat
  opset_version : Int
  showGraph : Bool
  output_file : String
  verify : Bool
  do_simplify : Bool
  /-- When present, the (mean, std) pair passed to mmcv.imnormalize. -/
  normalize_cfg : Option (Val × Val)
  deriving Repr

/-- Mutable state the script touches: the model's forward attribute, the
contents of the output file on disk, and the lines printed so far. -/
structure PState where
  forward : ForwardState
  outFile : Option Graph
  printed : List String
  deriving DecidableEq, Repr

def initState : PState :=
  { forward := ForwardState.original, outFile := none, printed := [] }

/-- The observable steps of a run, in execution order. -/
inductive Step where
  | modelEval
  | imread
  | imnormalize
  | imresize (h w : Nat)
  | patchForward
  | onnxExport
  | restoreForward
  | onnxsimSimplify
  | saveSimplified
  | printExported
  | onnxLoad
  | checkModel
  | pytorchForward (fs : ForwardState) (v : Val)
  | sessionRun (v : Val)
  | printSame
  | buildModel
  | loadCheckpoint
  deriving DecidableEq, Repr

/-- Result of a run: normal termination, or an uncaught assertion/exception
identified by its message. -/
inductive ScriptRes where
  | ok
  | err (msg : String)
  deriving DecidableEq, Repr

/-- Result, final state and trace of one run of the script. -/
structure RunOut where
  res : ScriptRes
  st  : PState
  tr  : List Step
  deriving DecidableEq, Repr

/- The abort messages of the script.  Bare Python asserts (no message) are
identified by the asserted expression's text. -/
def simplifyMsg : String := "Simplified ONNX model could not be validated"
def diffMsg : String := "The outputs are different between Pytorch and ONNX"
def sameMsg : String := "The numerical values are same between Pytorch and ONNX"
def opsetMsg : String := "MMDet only support opset 11 now"
def shapeMsg : String := "invalid input shape"
def feedMsg : String := "len(net_feed_input) == 1"
def meanLenMsg : String := "len(args.mean) == 3"
def stdLenMsg : String := "len(args.std) == 3"

def exportedMsgFor (f : String) : String :=
  "Successfully exported ONNX model: " ++ f

/-- The hard-coded initializer names deleted after simplification. -/
def removedNames : List String :=
  ["1218", "1081", "971", "861", "758", "756"]

/-- The removed_initializers list: every initializer whose name is in
removedNames, collected in order. -/
def collectRemoved (l : List GInit) : List GInit :=
  l.filter (fun i => removedNames.contains i.1)

/-- The loop `for initializer in removed_initializers: ...remove(initializer)`:
each Python list.remove deletes the first element equal to its argument. -/
def removeInits (l : List GInit) : List GInit :=
  (collectRemoved l).foldl List.erase l

/-- The graph as saved after simplification: initializers stripped. -/
def stripGraph (g : Graph) : Graph :=
  { g with inits := removeInits g.inits }

/-- The names of a graph's initializers (input_initializer in the source). -/
def initNames (g : Graph) : List String := g.inits.map Prod.fst

/-- net_feed_input = list(set(input_all) - set(input_initializer)).
Only its length matters to the script. -/
def netFeedInput (g : Graph) : List String :=
  (g.inputs.eraseDups).filter (fun n => !((initNames g).contains n))

/-- The preprocessed input image one_img: imread, optional imnormalize,
imresize to input_shape[2:], transpose to CHW, then tensor conversion. -/
def preprocess (env : Env) (o : Opts) : Val :=
  let i0 := env.imread o.input_img
  let i1 := match o.normalize_cfg with
    | some ms => env.imnormalize i0 ms.1 ms.2
    | none => i0
  let i2 := env.imresize i1 o.input_shape.2.2.1 o.input_shape.2.2.2
  env.toTensor (env.transposeCHW i2)

/-- The trace of the preprocessing phase, in source order. -/
def preTrace (o : Opts) : List Step :=
  [Step.modelEval, Step.imread] ++
    (match o.normalize_cfg with
      | some _ => [Step.imnormalize]
      | none => []) ++
    [Step.imresize o.input_shape.2.2.1 o.input_shape.2.2.2]

/-- The graph currently sitting in the output file (onnx.load(output_file)).
The file is always written before it is read, so the default is never hit. -/
def loadFile (st : PState) : Graph :=
  st.outFile.getD (Graph.mk [] [])

/-- The `if verify:` block: load and check the saved model, run the (restored)
PyTorch forward, assert one feed input, run the ONNX session, assert that both
output pairs are allclose, and print the success line.  The returned trace
holds the steps of this phase, in source order. -/
def verifyRun (env : Env) (o : Opts) (oneImg : Val) (st : PState) : RunOut :=
  if o.verify then
    if (netFeedInput (loadFile st)).length = 1 then
      if env.allclose (env.pytorchOut st.forward oneImg).1
            (env.sessionRun (loadFile st) oneImg).1 &&
          env.allclose (env.pytorchOut st.forward oneImg).2
            (env.sessionRun (loadFile st) oneImg).2 then
        ⟨ScriptRes.ok, { st with printed := st.printed ++ [sameMsg] },
          [Step.onnxLoad, Step.checkModel,
            Step.pytorchForward st.forward oneImg, Step.sessionRun oneImg,
            Step.printSame]⟩
      else ⟨ScriptRes.err diffMsg, st,
        [Step.onnxLoad, Step.checkModel,
          Step.pytorchForward st.forward oneImg, Step.sessionRun oneImg]⟩
    else ⟨ScriptRes.err feedMsg, st,
      [Step.onnxLoad, Step.checkModel,
        Step.pytorchForward st.forward oneImg]⟩
  else ⟨ScriptRes.ok, st, []⟩

/-- The state after the unconditional success print. -/
def withPrintedExported (o : Opts) (st : PState) : PState :=
  { st with printed := st.printed ++ [exportedMsgFor o.output_file] }

/-- The unconditional success print followed by the verify block. -/
def printAndVerify (env : Env) (o : Opts) (oneImg : Val) (st : PState) :
    RunOut :=
  ⟨(verifyRun env o oneImg (withPrintedExported o st)).res,
    (verifyRun env o oneImg (withPrintedExported o st)).st,
    Step.printExported ::
      (verifyRun env o oneImg (withPrintedExported o st)).tr⟩

/-- The state after onnx.save of the stripped simplified model. -/
def withSimplified (env : Env) (st : PState) : PState :=
  { st with outFile := some (stripGraph (env.onnxsim (loadFile st)).1) }

/-- The `if do_simplify:` block: simplify the saved graph, assert the
validation flag, strip the hard-coded initializers, save; on a failed check
the script aborts and the file keeps the originally exported graph. -/
def simplifyRun (env : Env) (o : Opts) (oneImg : Val) (st : PState) : RunOut :=
  if o.do_simplify then
    if (env.onnxsim (loadFile st)).2 then
      ⟨(printAndVerify env o oneImg (withSimplified env st)).res,
        (printAndVerify env o oneImg (withSimplified env st)).st,
        Step.onnxsimSimplify :: Step.saveSimplified ::
          (printAndVerify env o oneImg (withSimplified env st)).tr⟩
    else ⟨ScriptRes.err simplifyMsg, st, [Step.onnxsimSimplify]⟩
  else printAndVerify env o oneImg st

/-- The state right after torch.onnx.export and the restore of the original
forward: the patch set forward to the wrapper (Step.patchForward), export
wrote the file while it was patched (Step.onnxExport), and the assignment
back to origin_forward made it original again (Step.restoreForward). -/
def exportedState (env : Env) : PState :=
  ⟨ForwardState.original, some env.exported, []⟩

/-- The pytorch2onnx function: preprocess, patch forward, export (writing the
file while forward is patched), restore forward, then the optional simplify
and verify phases. -/
def runExport (env : Env) (o : Opts) : RunOut :=
  ⟨(simplifyRun env o (preprocess env o) (exportedState env)).res,
    (simplifyRun env o (preprocess env o) (exportedState env)).st,
    preTrace o ++
      [Step.patchForward, Step.onnxExport, Step.restoreForward] ++
      (simplifyRun env o (preprocess env o) (exportedState env)).tr⟩

/-- The parsed command-line arguments.  mean and std hold the values argparse
produced: the float defaults when the flag is absent, or (per type=int) parsed
integers when supplied. -/
structure Args where
  config : String
  checkpoint : String
  input_img : Option String
  showGraph : Bool
  output_file : String
  opset_version : Int
  verify : Bool
  simplify : Bool
  shape : List Nat
  mean : List ℚ
  std : List ℚ
  deriving Repr

/-- input_shape from args.shape: length 1 gives (1, 3, s, s), length 2 gives
(1, 3, h, w), anything else raises ValueError. -/
def computeInputShape (shape : List Nat) : Except String (Nat × Nat × Nat × Nat) :=
  match shape with
  | [s] => Except.ok (1, 3, s, s)
  | [h, w] => Except.ok (1, 3, h, w)
  | _ => Except.error shapeMsg

/-- The Opts value __main__ passes to pytorch2onnx: the (possibly defaulted)
input image path, the computed input shape, and a normalize_cfg built from
np.array(args.mean) and np.array(args.std). -/
def optsOf (env : Env) (a : Args) (sh : Nat × Nat × Nat × Nat) : Opts :=
  ⟨a.input_img.getD "../tests/data/color.jpg", sh, a.opset_version,
    a.showGraph, a.output_file, a.verify, a.simplify,
    some (env.npArray a.mean, env.npArray a.std)⟩

/-- The `if __name__ == '__main__':` block: assert opset 11, default the input
image, compute input_shape, assert len(mean) == 3 and len(std) == 3, build the
normalize_cfg, build the model, load the checkpoint, and call pytorch2onnx. -/
def mainRun (env : Env) (a : Args) : RunOut :=
  if a.opset_version = 11 then
    match computeInputShape a.shape with
    | Except.ok sh =>
      if a.mean.length = 3 then
        if a.std.length = 3 then
          ⟨(runExport env (optsOf env a sh)).res,
            (runExport env (optsOf env a sh)).st,
            Step.buildModel :: Step.loadCheckpoint ::
              (runExport env (optsOf env a sh)).tr⟩
        else ⟨ScriptRes.err stdLenMsg, initState, []⟩
      else ⟨ScriptRes.err meanLenMsg, initState, []⟩
    | Except.error e => ⟨ScriptRes.err e, initState, []⟩
  else ⟨ScriptRes.err opsetMsg, initState, []⟩

/- ---------------------------------------------------------------------- -/
/- mmdet/models/backbones/__init__.py                                      -/
/- ---------------------------------------------------------------------- -/

/-- The three import statements of the backbone registry module, each with the
names it brings in: regnet gives RegNet; resnet gives ResNet and
make_res_layer; resnext gives ResNeXt. -/
def backboneImports : List (String × List String) :=
  [("regnet", ["RegNet"]),
   ("resnet", ["ResNet", "make_res_layer"]),
   ("resnext", ["ResNeXt"])]

/-- The module's public names (its __all__ list), verbatim from the source. -/
def backbonesAll : List String :=
  ["RegNet", "ResNet", "make_res_layer", "ResNeXt"]

/- ---------------------------------------------------------------------- -/
/- argparse int parsing (for the --mean / --std type declaration)          -/
/- ---------------------------------------------------------------------- -/

/-- Value of a digit string, most significant first. -/
def digitsVal (ds : List Char) : Nat :=
  ds.foldl (fun n c => 10 * n + (c.toNat - 48)) 0

/-- Python int(str) as argparse applies it to each --mean / --std token:
an optional sign followed by decimal digits parses to an integer, anything
else (in particular a token with a decimal point) raises ValueError, which
argparse turns into an abort.  Returns none on the ValueError case. -/
def pyIntParse (s : String) : Option Int :=
  match s.data with
  | [] => none
  | '-' :: ds =>
    if !ds.isEmpty && ds.all (fun c => c.isDigit) then
      some (-(digitsVal ds : Int))
    else none
  | '+' :: ds =>
    if !ds.isEmpty && ds.all (fun c => c.isDigit) then
      some ((digitsVal ds : Int))
    else none
  | ds =>
    if ds.all (fun c => c.isDigit) then some ((digitsVal ds : Int))
    else none

/-- argparse applying type=int to every supplied token of --mean or --std. -/
def parseIntList (toks : List String) : Option (List Int) :=
  toks.mapM pyIntParse

/-- The declared default of --mean, exact decimal values. -/
def meanDefault : List ℚ := [123.675, 116.28, 103.53]

/-- The declared default of --std, exact decimal values. -/
def stdDefault : List ℚ := [58.395, 57.12, 57.375]

/- ---------------------------------------------------------------------- -/
/- Derived descriptions used by the theorems                               -/
/- ---------------------------------------------------------------------- -/

/-- The graph sitting in the output file when the verify phase reads it:
the stripped simplified graph when do_simplify was on, else the exported
graph. -/
def verifiedGraph (env : Env) (o : Opts) : Graph :=
  if o.do_simplify then stripGraph (env.onnxsim env.exported).1
  else env.exported

/-- The full step trace of a run of pytorch2onnx that terminates normally:
preprocessing, patch, export, restore, then the simplify steps exactly when
do_simplify is set, the success print, and the verify steps exactly when
verify is set. -/
def expectedOkTrace (env : Env) (o : Opts) : List Step :=
  preTrace o ++ [Step.patchForward, Step.onnxExport, Step.restoreForward] ++
    (if o.do_simplify then [Step.onnxsimSimplify, Step.saveSimplified]
      else []) ++
    [Step.printExported] ++
    (if o.verify then
      [Step.onnxLoad, Step.checkModel,
        Step.pytorchForward ForwardState.original (preprocess env o),
        Step.sessionRun (preprocess env o), Step.printSame]
      else [])

/- ---------------------------------------------------------------------- -/
/- Concrete instances used by the witnesses                                -/
/- ---------------------------------------------------------------------- -/

/-- A concrete oracle on which every external call succeeds and the two
output pairs agree. -/
def envW : Env :=
  ⟨fun _ => 7, fun v _ _ => v + 1, fun v _ _ => v + 2, fun v => v + 3,
    fun v => v + 4, fun _ => 0,
    Graph.mk ["input"] [("w", 5), ("1218", 9)],
    fun g => (g, true),
    fun _ v => (v, v + 1), fun _ v => (v, v + 1),
    fun a b => a == b⟩

/-- Like envW but np.allclose always fails. -/
def envFar : Env :=
  ⟨fun _ => 7, fun v _ _ => v + 1, fun v _ _ => v + 2, fun v => v + 3,
    fun v => v + 4, fun _ => 0,
    Graph.mk ["input"] [("w", 5), ("1218", 9)],
    fun g => (g, true),
    fun _ v => (v, v + 1), fun _ v => (v, v + 1),
    fun _ _ => false⟩

/-- Like envW but the onnxsim validation flag is false. -/
def envBadSim : Env :=
  ⟨fun _ => 7, fun v _ _ => v + 1, fun v _ _ => v + 2, fun v => v + 3,
    fun v => v + 4, fun _ => 0,
    Graph.mk ["input"] [("w", 5), ("1218", 9)],
    fun g => (g, false),
    fun _ v => (v, v + 1), fun _ v => (v, v + 1),
    fun a b => a == b⟩

/-- Options with both simplification and verification enabled. -/
def optsSV : Opts :=
  ⟨"demo.jpg", (1, 3, 384, 768), 11, false, "tmp.onnx", true, true,
    some (1, 2)⟩

/-- Options with neither simplification nor verification. -/
def optsPlain : Opts :=
  ⟨"demo.jpg", (1, 3, 384, 768), 11, false, "tmp.onnx", false, false, none⟩

/-- A fully valid command line, with verification and simplification on. -/
def argsW : Args :=
  ⟨"cfg.py", "ckpt.pth", some "demo.jpg", false, "tmp.onnx", 11, true, true,
    [384, 768], meanDefault, stdDefault⟩

/- ---------------------------------------------------------------------- -/
/- Helper lemmas                                                           -/
/- ---------------------------------------------------------------------- -/

@[simp] theorem loadFile_withPrintedExported (o : Opts) (st : PState) :
    loadFile (withPrintedExported o st) = loadFile st := rfl

@[simp] theorem forward_withPrintedExported (o : Opts) (st : PState) :
    (withPrintedExported o st).forward = st.forward := rfl

@[simp] theorem outFile_withPrintedExported (o : Opts) (st : PState) :
    (withPrintedExported o st).outFile = st.outFile := rfl

@[simp] theorem printed_withPrintedExported (o : Opts) (st : PState) :
    (withPrintedExported o st).printed =
      st.printed ++ [exportedMsgFor o.output_file] := rfl

@[simp] theorem loadFile_withSimplified (env : Env) (st : PState) :
    loadFile (withSimplified env st) =
      stripGraph (env.onnxsim (loadFile st)).1 := rfl

@[simp] theorem forward_withSimplified (env : Env) (st : PState) :
    (withSimplified env st).forward = st.forward := rfl

@[simp] theorem outFile_withSimplified (env : Env) (st : PState) :
    (withSimplified env st).outFile =
      some (stripGraph (env.onnxsim (loadFile st)).1) := rfl

@[simp] theorem printed_withSimplified (env : Env) (st : PState) :
    (withSimplified env st).printed = st.printed := rfl

@[simp] theorem loadFile_exportedState (env : Env) :
    loadFile (exportedState env) = env.exported := rfl

@[simp] theorem forward_exportedState (env : Env) :
    (exportedState env).forward = ForwardState.original := rfl

@[simp] theorem outFile_exportedState (env : Env) :
    (exportedState env).outFile = some env.exported := rfl

@[simp] theorem printed_exportedState (env : Env) :
    (exportedState env).printed = [] := rfl

/-- Folding List.erase over elements all different from the head leaves the
head in place. -/
theorem foldl_erase_cons {α : Type} [BEq α] [LawfulBEq α] (a : α)
    (t es : List α)
    (h : ∀ e ∈ es, e ≠ a) :
    es.foldl List.erase (a :: t) = a :: es.foldl List.erase t := by
  induction es generalizing t with
  | nil => rfl
  | cons e es ih =>
    have hea : ¬ (a == e) = true := by
      simp only [beq_iff_eq]
      exact fun hc => (h e (List.mem_cons_self e es)) hc.symm
    simp only [List.foldl_cons, List.erase_cons_tail hea]
    exact ih (t.erase e) (fun x hx => h x (List.mem_cons_of_mem e hx))

/-- Folding List.erase over the p-filtered elements of a list removes exactly
the elements satisfying p and keeps the rest in order: the semantics of
collecting matching entries and then calling Python list.remove on each. -/
theorem foldl_erase_filter {α : Type} [BEq α] [LawfulBEq α] (p : α → Bool)
    (l : List α) :
    (l.filter p).foldl List.erase l = l.filter (fun x => !(p x)) := by
  induction l with
  | nil => rfl
  | cons a t ih =>
    by_cases hp : p a = true
    · rw [List.filter_cons_of_pos hp]
      simp only [List.foldl_cons, List.erase_cons_head]
      rw [ih, List.filter_cons_of_neg (by simp [hp])]
    · rw [List.filter_cons_of_neg hp]
      rw [foldl_erase_cons a t _ (fun e he => by
        intro hc
        exact hp (hc ▸ (List.mem_filter.mp he).2))]
      rw [ih, List.filter_cons_of_pos (by simp [hp])]

/-- removeInits deletes exactly the initializers with a hard-coded name and
keeps every other one unchanged, in order. -/
theorem removeInits_eq_filter (l : List GInit) :
    removeInits l = l.filter (fun i => !(removedNames.contains i.1)) := by
  unfold removeInits collectRemoved
  exact foldl_erase_filter _ l

/-- No preprocessing step is a pytorchForward step. -/
theorem pytorchForward_notin_preTrace (o : Opts) (fs : ForwardState)
    (v : Val) : Step.pytorchForward fs v ∉ preTrace o := by
  unfold preTrace
  cases o.normalize_cfg <;> simp

/-- Heads of a cast integer list have denominator 1. -/
theorem mapIntCast_head_den (l : List ℤ) (q : ℚ) (r : List ℚ)
    (h : l.map (fun n => (Int.cast n : ℚ)) = q :: r) : q.den = 1 := by
  cases l with
  | nil => exact List.noConfusion h
  | cons a t =>
    rw [List.map_cons] at h
    injection h with h1 h2
    rw [← h1]
    exact Rat.den_intCast a

/-- Exactly which steps the preprocessing trace contains. -/
theorem mem_preTrace_iff (o : Opts) (s : Step) :
    s ∈ preTrace o ↔
      (s = Step.modelEval ∨ s = Step.imread ∨
        (o.normalize_cfg ≠ none ∧ s = Step.imnormalize) ∨
        s = Step.imresize o.input_shape.2.2.1 o.input_shape.2.2.2) := by
  unfold preTrace
  cases o.normalize_cfg <;> simp

/-- computeInputShape only ever raises the invalid-shape message. -/
theorem computeInputShape_error (l : List Nat) (s : String)
    (h : computeInputShape l = Except.error s) : s = shapeMsg := by
  unfold computeInputShape at h
  rcases l with _ | ⟨a, _ | ⟨b, _ | _⟩⟩ <;> simp_all

/- ---------------------------------------------------------------------- -/
/- Claim theorems                                                          -/
/- ---------------------------------------------------------------------- -/

/-- C3 counterexample: the backbone registry module's __all__ list does not
have exactly three entries — it has four. -/
theorem backbones_not_three_names : ¬ (backbonesAll.length = 3) := by
  decide

/-- C3 (amended): the backbone registry module exposes exactly four public
names, brought in by exactly three import statements, and its __all__ list is
precisely the names those imports bring in. -/
theorem backbones_four_names_three_imports :
    backbonesAll.length = 4 ∧ backboneImports.length = 3 ∧
    (backboneImports.map Prod.snd).flatten = backbonesAll := by
  decide

/-- C4: whenever --opset-version is not 11, the script aborts with the
opset assertion message before doing anything: no step is performed, the
model is not built, and no file is written. -/
theorem opset_guard (env : Env) (a : Args) (h : a.opset_version ≠ 11) :
    (mainRun env a).res = ScriptRes.err opsetMsg ∧
    (mainRun env a).tr = [] ∧
    (mainRun env a).st = initState ∧
    Step.buildModel ∉ (mainRun env a).tr ∧
    Step.onnxExport ∉ (mainRun env a).tr := by
  unfold mainRun
  rw [if_neg h]
  exact ⟨rfl, rfl, rfl, by simp, by simp⟩

/-- C4 witness: opset 10 aborts with the opset message. -/
theorem opset_guard_witness :
    (mainRun envW ⟨"cfg.py", "ckpt.pth", some "demo.jpg", false, "tmp.onnx",
      10, true, true, [384, 768], meanDefault, stdDefault⟩).res =
      ScriptRes.err opsetMsg :=
  (opset_guard envW _ (by decide)).1

/-- C5: a one-element --shape s gives input shape (1, 3, s, s), a two-element
--shape h w gives (1, 3, h, w), any other length raises the invalid-shape
ValueError; and after a valid shape, a --mean or --std list whose length is
not 3 aborts the script with the corresponding assertion. -/
theorem shape_mean_std_validation :
    (∀ s, computeInputShape [s] = Except.ok (1, 3, s, s)) ∧
    (∀ hh ww, computeInputShape [hh, ww] = Except.ok (1, 3, hh, ww)) ∧
    (∀ l, l.length ≠ 1 → l.length ≠ 2 →
      computeInputShape l = Except.error shapeMsg) ∧
    (∀ env a sh, a.opset_version = 11 →
      computeInputShape a.shape = Except.ok sh →
      a.mean.length ≠ 3 →
      (mainRun env a).res = ScriptRes.err meanLenMsg ∧
        (mainRun env a).tr = []) ∧
    (∀ env a sh, a.opset_version = 11 →
      computeInputShape a.shape = Except.ok sh →
      a.mean.length = 3 → a.std.length ≠ 3 →
      (mainRun env a).res = ScriptRes.err stdLenMsg ∧
        (mainRun env a).tr = []) := by
  refine ⟨fun s => rfl, fun hh ww => rfl, ?_, ?_, ?_⟩
  · intro l h1 h2
    rcases l with _ | ⟨a, _ | ⟨b, _ | _⟩⟩ <;> simp_all [computeInputShape]
  · intro env a sh h11 hsh hm
    unfold mainRun
    rw [if_pos h11, hsh]
    simp [hm]
  · intro env a sh h11 hsh hm hstd
    unfold mainRun
    rw [if_pos h11, hsh]
    simp [hm, hstd]

/-- C5 witness: shape [256] gives (1, 3, 256, 256), shape [1, 2, 3] raises
the invalid-shape error, and a two-element --mean aborts with the mean
length assertion. -/
theorem shape_mean_std_validation_witness :
    computeInputShape [256] = Except.ok (1, 3, 256, 256) ∧
    computeInputShape [1, 2, 3] = Except.error shapeMsg ∧
    (mainRun envW ⟨"cfg.py", "ckpt.pth", some "demo.jpg", false, "tmp.onnx",
      11, true, true, [384, 768], [1, 2], stdDefault⟩).res =
      ScriptRes.err meanLenMsg := by
  refine ⟨shape_mean_std_validation.1 256,
    shape_mean_std_validation.2.2.1 [1, 2, 3] (by decide) (by decide),
    (shape_mean_std_validation.2.2.2.1 envW _ (1, 3, 384, 768) (by decide)
      (by rfl) (by decide)).1⟩

/-- C9: when simplification is enabled and the onnxsim check passes, the
graph saved to the output file keeps exactly the simplified graph's
initializers whose name is not one of the six hard-coded names, in order,
and drops every initializer carrying one of those names. -/
theorem simplify_removes_exact_inits (env : Env) (o : Opts)
    (hs : o.do_simplify = true)
    (hc : (env.onnxsim env.exported).2 = true) :
    (runExport env o).st.outFile =
      some (Graph.mk (env.onnxsim env.exported).1.inputs
        ((env.onnxsim env.exported).1.inits.filter
          (fun i => !(removedNames.contains i.1)))) ∧
    Step.saveSimplified ∈ (runExport env o).tr := by
  unfold runExport simplifyRun printAndVerify verifyRun
  simp only [loadFile, exportedState, withSimplified, withPrintedExported,
    Option.getD_some, hs, hc, if_true]
  split_ifs <;>
    simp_all [stripGraph, removeInits_eq_filter, mem_preTrace_iff]

/-- C9 witness: on a concrete simplified graph the initializer named 1218 is
dropped and the one named w survives. -/
theorem simplify_removes_exact_inits_witness :
    (runExport envW optsSV).st.outFile =
      some (Graph.mk ["input"] [("w", 5)]) ∧
    Step.saveSimplified ∈ (runExport envW optsSV).tr := by
  have h := simplify_removes_exact_inits envW optsSV (by decide) (by decide)
  exact ⟨by rw [h.1]; decide, h.2⟩

/-- C10: --mean and --std are declared with type=int while their defaults are
the non-integer floats 123.675, 116.28, 103.53 and 58.395, 57.12, 57.375:
supplying the default literals makes int() raise, every successfully parsed
value list consists of integers, and hence no supplied list reproduces either
default list exactly. -/
theorem mean_std_int_vs_float_defaults :
    pyIntParse "123.675" = none ∧ pyIntParse "58.395" = none ∧
    (∀ q ∈ meanDefault, q.den ≠ 1) ∧ (∀ q ∈ stdDefault, q.den ≠ 1) ∧
    (∀ toks l, parseIntList toks = some l →
      l.map (fun n => (Int.cast n : ℚ)) ≠ meanDefault ∧
      l.map (fun n => (Int.cast n : ℚ)) ≠ stdDefault) := by
  refine ⟨rfl, rfl, ?_, ?_, ?_⟩
  · intro q hq
    rcases List.mem_cons.mp hq with h | hq
    · rw [h]; norm_num [Rat.den]
    rcases List.mem_cons.mp hq with h | hq
    · rw [h]; norm_num [Rat.den]
    rcases List.mem_cons.mp hq with h | hq
    · rw [h]; norm_num [Rat.den]
    · exact absurd hq (List.not_mem_nil q)
  · intro q hq
    rcases List.mem_cons.mp hq with h | hq
    · rw [h]; norm_num [Rat.den]
    rcases List.mem_cons.mp hq with h | hq
    · rw [h]; norm_num [Rat.den]
    rcases List.mem_cons.mp hq with h | hq
    · rw [h]; norm_num [Rat.den]
    · exact absurd hq (List.not_mem_nil q)
  · intro toks l hp
    constructor
    · intro heq
      have hd : ((123.675 : ℚ)).den = 1 := mapIntCast_head_den l _ _ heq
      have : ((123.675 : ℚ)).den ≠ 1 := by norm_num [Rat.den]
      exact this hd
    · intro heq
      have hd : ((58.395 : ℚ)).den = 1 := mapIntCast_head_den l _ _ heq
      have : ((58.395 : ℚ)).den ≠ 1 := by norm_num [Rat.den]
      exact this hd

/-- C10 witness: the integer tokens 123 116 103 parse, and the parsed list is
not the float default of --mean. -/
theorem mean_std_int_vs_float_defaults_witness :
    parseIntList ["123", "116", "103"] = some [123, 116, 103] ∧
    ([123, 116, 103] : List ℤ).map (fun n => (Int.cast n : ℚ)) ≠
      meanDefault := by
  refine ⟨by decide, ?_⟩
  exact (mean_std_int_vs_float_defaults.2.2.2.2 ["123", "116", "103"]
    [123, 116, 103] (by decide)).1

/-- C2: every run of pytorch2onnx that terminates normally performs, in this
order: image read and preprocessing (with normalization exactly when a
normalize_cfg is given, then resize to input_shape[2:] and CHW transpose),
the forward patch, the ONNX export, the restore of the original forward,
the simplification steps exactly when do_simplify is set, and the
verification steps exactly when verify is set; and it leaves the forward
method in its original state. -/
theorem step_order (env : Env) (o : Opts)
    (h : (runExport env o).res = ScriptRes.ok) :
    (runExport env o).tr = expectedOkTrace env o ∧
    (runExport env o).st.forward = ForwardState.original := by
  unfold runExport simplifyRun printAndVerify verifyRun at h ⊢
  unfold expectedOkTrace
  split_ifs at h ⊢ <;>
    simp_all [withPrintedExported, withSimplified, exportedState, loadFile]

/-- C2 witness: a run with simplification and verification enabled ends
normally and its trace is the expected one. -/
theorem step_order_witness :
    (runExport envW optsSV).res = ScriptRes.ok ∧
    (runExport envW optsSV).tr = expectedOkTrace envW optsSV :=
  ⟨by decide, (step_order envW optsSV (by decide)).1⟩

/-- C7: simplification runs exactly when do_simplify is set; when the onnxsim
validation flag is false the script aborts with the validation message and
the output file still holds the originally exported graph; when the flag is
true the stripped simplified graph overwrites the file. -/
theorem simplify_gating (env : Env) (o : Opts) :
    (o.do_simplify = false →
      Step.onnxsimSimplify ∉ (runExport env o).tr ∧
      (runExport env o).st.outFile = some env.exported) ∧
    (o.do_simplify = true →
      Step.onnxsimSimplify ∈ (runExport env o).tr ∧
      ((env.onnxsim env.exported).2 = false →
        (runExport env o).res = ScriptRes.err simplifyMsg ∧
        (runExport env o).st.outFile = some env.exported ∧
        Step.saveSimplified ∉ (runExport env o).tr) ∧
      ((env.onnxsim env.exported).2 = true →
        (runExport env o).st.outFile =
          some (stripGraph (env.onnxsim env.exported).1) ∧
        Step.saveSimplified ∈ (runExport env o).tr)) := by
  constructor
  · intro hs
    unfold runExport simplifyRun printAndVerify verifyRun
    simp only [loadFile, exportedState, withSimplified, withPrintedExported,
      Option.getD_some, hs, Bool.false_eq_true, if_false]
    split_ifs <;> simp_all [mem_preTrace_iff]
  · intro hs
    unfold runExport simplifyRun printAndVerify verifyRun
    simp only [loadFile, exportedState, withSimplified, withPrintedExported,
      Option.getD_some, hs, if_true]
    refine ⟨?_, ?_, ?_⟩
    · split_ifs <;> simp [mem_preTrace_iff]
    · intro hc
      simp only [hc, Bool.false_eq_true, if_false]
      simp_all [mem_preTrace_iff]
    · intro hc
      simp only [hc, if_true]
      split_ifs <;> simp_all [mem_preTrace_iff, stripGraph]

/-- C7 witness: with do_simplify set and a failing validation flag the run
aborts with the validation message and keeps the exported graph on disk. -/
theorem simplify_gating_witness :
    (runExport envBadSim optsSV).res = ScriptRes.err simplifyMsg ∧
    (runExport envBadSim optsSV).st.outFile = some envBadSim.exported :=
  ⟨(((simplify_gating envBadSim optsSV).2 (by decide)).2.1 (by decide)).1,
    (((simplify_gating envBadSim optsSV).2 (by decide)).2.1 (by decide)).2.1⟩

/-- C8: after every run of pytorch2onnx the model's forward attribute holds
the original method again; the restore step immediately follows the export
step in the trace; and any PyTorch forward call the verify phase makes goes
through the original, unpatched forward. -/
theorem forward_restored (env : Env) (o : Opts) :
    (runExport env o).st.forward = ForwardState.original ∧
    (∃ l₁ l₂, (runExport env o).tr =
      l₁ ++ Step.onnxExport :: Step.restoreForward :: l₂) ∧
    (∀ fs v, Step.pytorchForward fs v ∈ (runExport env o).tr →
      fs = ForwardState.original) := by
  refine ⟨?_, ?_, ?_⟩
  · unfold runExport simplifyRun printAndVerify verifyRun
    split_ifs <;> rfl
  · refine ⟨preTrace o ++ [Step.patchForward],
      (simplifyRun env o (preprocess env o) (exportedState env)).tr, ?_⟩
    unfold runExport
    simp
  · intro fs v hmem
    unfold runExport simplifyRun printAndVerify verifyRun at hmem
    split_ifs at hmem <;>
      simp_all [mem_preTrace_iff, withPrintedExported, withSimplified,
        exportedState, loadFile]

/-- C1: with verify set, once control reaches the numeric comparison (the
onnxsim flag is true whenever simplification is on, and the saved graph has
exactly one feed input), the run has computed the PyTorch pan/cat outputs and
the ONNX session pan/cat outputs on the same preprocessed image; if both
pairs are allclose the script terminates normally and prints the same-values
line, and otherwise it aborts with the different-outputs message. -/
theorem verify_numeric_check (env : Env) (o : Opts)
    (hv : o.verify = true)
    (hs : o.do_simplify = true → (env.onnxsim env.exported).2 = true)
    (hf : (netFeedInput (verifiedGraph env o)).length = 1) :
    Step.pytorchForward ForwardState.original (preprocess env o) ∈
      (runExport env o).tr ∧
    Step.sessionRun (preprocess env o) ∈ (runExport env o).tr ∧
    ((env.allclose (env.pytorchOut ForwardState.original (preprocess env o)).1
        (env.sessionRun (verifiedGraph env o) (preprocess env o)).1 &&
      env.allclose (env.pytorchOut ForwardState.original (preprocess env o)).2
        (env.sessionRun (verifiedGraph env o) (preprocess env o)).2) = true →
      (runExport env o).res = ScriptRes.ok ∧
      sameMsg ∈ (runExport env o).st.printed) ∧
    ((env.allclose (env.pytorchOut ForwardState.original (preprocess env o)).1
        (env.sessionRun (verifiedGraph env o) (preprocess env o)).1 &&
      env.allclose (env.pytorchOut ForwardState.original (preprocess env o)).2
        (env.sessionRun (verifiedGraph env o) (preprocess env o)).2) = false →
      (runExport env o).res = ScriptRes.err diffMsg) := by
  unfold verifiedGraph at hf ⊢
  unfold runExport simplifyRun printAndVerify verifyRun
  split_ifs at hf ⊢ <;> simp_all [mem_preTrace_iff]

/-- C1 witness: on a concrete verified run with matching outputs the script
ends normally and prints the same-values line. -/
theorem verify_numeric_check_witness :
    (runExport envW optsSV).res = ScriptRes.ok ∧
    sameMsg ∈ (runExport envW optsSV).st.printed := by
  exact (verify_numeric_check envW optsSV (by decide) (fun _ => by decide)
    (by decide)).2.2.1 (by decide)

/-- C6: every failure of the export script is a terminating abort: when a run
ends in an error, the verify phase's success print never happened; the
argument-validation aborts (opset, shape, mean, std) happen before any step
is taken or any state is touched; a failed onnxsim validation stops before
the save, the exported-file print, and the verify phase; and a failed
feed-input assertion stops before the ONNX session runs. -/
theorem no_recovery_after_failure (env : Env) (a : Args) (e : String)
    (he : (mainRun env a).res = ScriptRes.err e) :
    Step.printSame ∉ (mainRun env a).tr ∧
    ((e = opsetMsg ∨ e = shapeMsg ∨ e = meanLenMsg ∨ e = stdLenMsg) →
      (mainRun env a).tr = [] ∧ (mainRun env a).st = initState) ∧
    (e = simplifyMsg →
      Step.saveSimplified ∉ (mainRun env a).tr ∧
      Step.printExported ∉ (mainRun env a).tr ∧
      Step.onnxLoad ∉ (mainRun env a).tr ∧
      (mainRun env a).st.printed = []) ∧
    (e = feedMsg → ∀ v, Step.sessionRun v ∉ (mainRun env a).tr) := by
  unfold mainRun at he ⊢
  by_cases h11 : a.opset_version = 11
  case neg =>
    rw [if_neg h11] at he ⊢
    injection he with he'
    refine ⟨by simp, fun _ => ⟨rfl, rfl⟩, fun hx => ?_, fun hx => ?_⟩
    · exact absurd (he'.trans hx) (by decide)
    · exact absurd (he'.trans hx) (by decide)
  case pos =>
    rw [if_pos h11] at he ⊢
    cases hsh : computeInputShape a.shape with
    | error s =>
      rw [hsh] at he
      dsimp only at he ⊢
      injection he with he'
      have hs' : s = shapeMsg := computeInputShape_error a.shape s hsh
      subst hs'
      refine ⟨by simp, fun _ => ⟨rfl, rfl⟩, fun hx => ?_, fun hx => ?_⟩
      · exact absurd (he'.trans hx) (by decide)
      · exact absurd (he'.trans hx) (by decide)
    | ok sh =>
      rw [hsh] at he
      dsimp only at he ⊢
      by_cases hm : a.mean.length = 3
      case neg =>
        rw [if_neg hm] at he ⊢
        injection he with he'
        refine ⟨by simp, fun _ => ⟨rfl, rfl⟩, fun hx => ?_, fun hx => ?_⟩
        · exact absurd (he'.trans hx) (by decide)
        · exact absurd (he'.trans hx) (by decide)
      case pos =>
        rw [if_pos hm] at he ⊢
        by_cases hstd : a.std.length = 3
        case neg =>
          rw [if_neg hstd] at he ⊢
          injection he with he'
          refine ⟨by simp, fun _ => ⟨rfl, rfl⟩, fun hx => ?_, fun hx => ?_⟩
          · exact absurd (he'.trans hx) (by decide)
          · exact absurd (he'.trans hx) (by decide)
        case pos =>
          rw [if_pos hstd] at he ⊢
          unfold runExport simplifyRun printAndVerify verifyRun at he ⊢
          split_ifs at he ⊢ <;>
            simp_all [mem_preTrace_iff, withPrintedExported, withSimplified,
              exportedState, loadFile, opsetMsg, shapeMsg, meanLenMsg,
              stdLenMsg, simplifyMsg, feedMsg, diffMsg] <;>
            subst_vars <;> simp_all

/-- C6 witness: a run whose numeric comparison fails ends in the
different-outputs abort, and the success print of the verify phase is not in
its trace. -/
theorem no_recovery_after_failure_witness :
    (mainRun envFar argsW).res = ScriptRes.err diffMsg ∧
    Step.printSame ∉ (mainRun envFar argsW).tr := by
  refine ⟨by decide, ?_⟩
  exact (no_recovery_after_failure envFar argsW diffMsg (by decide)).1

/-- C8 witness: on a concrete verified run the forward ends original and the
export step is immediately followed by the restore step. -/
theorem forward_restored_witness :
    (runExport envW optsSV).st.forward = ForwardState.original ∧
    (∃ l₁ l₂, (runExport envW optsSV).tr =
      l₁ ++ Step.onnxExport :: Step.restoreForward :: l₂) :=
  ⟨(forward_restored envW optsSV).1, (forward_restored envW optsSV).2.1⟩

end EfficientPS
